import Mathlib

/-! The AtomOne ante handler (`ante/ante.go`).

A shallow embedding of `NewAnteHandler`: the option record, the six presence
checks with their wrapped errors, the default for the signature gas consumer,
and the literal list of fifteen decorators handed to `ChainAnteDecorators`.

Go values that may be `nil` (interfaces, pointers, function values) are
`Option`s of a handle; the Go result pair `(sdk.AnteHandler, error)` is a pair
of `Option`s, so that "both" and "neither" are expressible.
-/

set_option linter.dupNamespace false

namespace AtomOne

/-! ## Collaborator handles -/

/-- Handle of an `ante.AccountKeeper` implementation. -/
structure AccountKeeper where
  id : Nat
  deriving DecidableEq, Repr

/-- Handle of a bank keeper implementation. -/
structure BankKeeper where
  id : Nat
  deriving DecidableEq, Repr

/-- Handle of an `ante.FeegrantKeeper` implementation. -/
structure FeegrantKeeper where
  id : Nat
  deriving DecidableEq, Repr

/-- Handle of a sign mode handler. -/
structure SignModeHandler where
  id : Nat
  deriving DecidableEq, Repr

/-- Handle of an `ante.ExtensionOptionChecker` function value. -/
structure ExtensionOptionChecker where
  id : Nat
  deriving DecidableEq, Repr

/-- Handle of an `ante.TxFeeChecker` function value. -/
structure TxFeeChecker where
  id : Nat
  deriving DecidableEq, Repr

/-- Handle of a `codec.BinaryCodec` implementation. -/
structure BinaryCodec where
  id : Nat
  deriving DecidableEq, Repr

/-- Handle of what an `*ibckeeper.Keeper` points to. -/
structure IBCKeeper where
  id : Nat
  deriving DecidableEq, Repr

/-- Handle of what a `*stakingkeeper.Keeper` points to. -/
structure StakingKeeper where
  id : Nat
  deriving DecidableEq, Repr

/-- A signature gas consumer function value: the SDK's
`ante.DefaultSigVerificationGasConsumer`, or some other function. -/
inductive SignatureVerificationGasConsumer where
  | DefaultSigVerificationGasConsumer
  | custom (id : Nat)
  deriving DecidableEq, Repr

/-- The `paramtypes.Subspace` struct, a value (not a pointer); only its name is
read by the ante handler constructor. -/
structure Subspace where
  name : String
  deriving DecidableEq, Repr

/-- The method `Subspace.Name()`. -/
def Subspace.Name (s : Subspace) : String := s.name

/-! ## Errors -/

/-- The two registered root errors of `types/errors` used by `NewAnteHandler`. -/
inductive RootError where
  | ErrLogic
  | ErrNotFound
  deriving DecidableEq, Repr

/-- What `errorsmod.Wrap` returns for a non-nil root error: the root error and
the description wrapped around it. -/
structure WrappedError where
  parent : RootError
  msg : String
  deriving DecidableEq, Repr

/-- The call `errorsmod.Wrap(err, description)` on a registered root error. -/
def Wrap (err : RootError) (description : String) : WrappedError :=
  ⟨err, description⟩

/-! ## Options -/

/-- The embedded SDK record `ante.HandlerOptions`. -/
structure ante.HandlerOptions where
  AccountKeeper : Option AccountKeeper
  BankKeeper : Option BankKeeper
  ExtensionOptionChecker : Option ExtensionOptionChecker
  FeegrantKeeper : Option FeegrantKeeper
  SignModeHandler : Option SignModeHandler
  SigGasConsumer : Option SignatureVerificationGasConsumer
  TxFeeChecker : Option TxFeeChecker
  deriving DecidableEq, Repr

/-- The record `HandlerOptions` of `ante/ante.go`: the embedded SDK options and
five fields of its own. Its own `TxFeeChecker` shadows the embedded one, so
`opts.TxFeeChecker` in the source is the field declared here. -/
structure HandlerOptions where
  HandlerOptions : ante.HandlerOptions
  Codec : Option BinaryCodec
  IBCkeeper : Option IBCKeeper
  GlobalFeeSubspace : Subspace
  StakingKeeper : Option StakingKeeper
  TxFeeChecker : Option TxFeeChecker
  deriving DecidableEq, Repr

/-! ## Decorators -/

/-- The decorator values built in `NewAnteHandler`, one constructor per
constructor call of the source, each holding the arguments it was given
(still nullable, as in Go). -/
inductive AnteDecorator where
  | SetUpContextDecorator
  | ExtensionOptionsDecorator (checker : Option ExtensionOptionChecker)
  | ValidateBasicDecorator
  | TxTimeoutHeightDecorator
  | ValidateMemoDecorator (ak : Option AccountKeeper)
  | ConsumeGasForTxSizeDecorator (ak : Option AccountKeeper)
  | GovVoteDecorator (cdc : Option BinaryCodec) (sk : Option StakingKeeper)
  | FeeDecorator (globalfeeSubspace : Subspace) (sk : Option StakingKeeper)
  | DeductFeeDecorator (ak : Option AccountKeeper) (bk : Option BankKeeper)
      (fk : Option FeegrantKeeper) (tfc : Option TxFeeChecker)
  | SetPubKeyDecorator (ak : Option AccountKeeper)
  | ValidateSigCountDecorator (ak : Option AccountKeeper)
  | SigGasConsumeDecorator (ak : Option AccountKeeper)
      (sigGasConsumer : Option SignatureVerificationGasConsumer)
  | SigVerificationDecorator (ak : Option AccountKeeper)
      (signModeHandler : Option SignModeHandler)
  | IncrementSequenceDecorator (ak : Option AccountKeeper)
  | RedundantRelayDecorator (k : Option IBCKeeper)
  deriving DecidableEq, Repr

/-- The handler value returned by `sdk.ChainAnteDecorators`: it closes over the
decorator slice it was given. -/
structure ChainedAnteHandler where
  chain : List AnteDecorator
  deriving DecidableEq, Repr

/-- Modelled from the spec: `sdk.ChainAnteDecorators` is a library function
whose body is not among the sources. Section 4.1 has the builder return the
assembled stage ordering as the pipeline, and the source comments call the
first decorator the outermost one; the handler is therefore the given slice,
in order. The library returns a nil handler for an empty slice. -/
def ChainAnteDecorators (chain : List AnteDecorator) : Option ChainedAnteHandler :=
  if chain.isEmpty then none else some ⟨chain⟩

/-- The local `sigGasConsumer` of `NewAnteHandler` (lines 52 to 55): the
caller's function, or the SDK default when the caller's is nil. -/
def sigGasConsumer (opts : HandlerOptions) : Option SignatureVerificationGasConsumer :=
  match opts.HandlerOptions.SigGasConsumer with
  | none => some SignatureVerificationGasConsumer.DefaultSigVerificationGasConsumer
  | some f => some f

/-- The local slice `anteDecorators` of `NewAnteHandler` (lines 57 to 73). -/
def anteDecorators (opts : HandlerOptions) : List AnteDecorator :=
  [ AnteDecorator.SetUpContextDecorator,
    AnteDecorator.ExtensionOptionsDecorator opts.HandlerOptions.ExtensionOptionChecker,
    AnteDecorator.ValidateBasicDecorator,
    AnteDecorator.TxTimeoutHeightDecorator,
    AnteDecorator.ValidateMemoDecorator opts.HandlerOptions.AccountKeeper,
    AnteDecorator.ConsumeGasForTxSizeDecorator opts.HandlerOptions.AccountKeeper,
    AnteDecorator.GovVoteDecorator opts.Codec opts.StakingKeeper,
    AnteDecorator.FeeDecorator opts.GlobalFeeSubspace opts.StakingKeeper,
    AnteDecorator.DeductFeeDecorator opts.HandlerOptions.AccountKeeper
      opts.HandlerOptions.BankKeeper opts.HandlerOptions.FeegrantKeeper opts.TxFeeChecker,
    AnteDecorator.SetPubKeyDecorator opts.HandlerOptions.AccountKeeper,
    AnteDecorator.ValidateSigCountDecorator opts.HandlerOptions.AccountKeeper,
    AnteDecorator.SigGasConsumeDecorator opts.HandlerOptions.AccountKeeper (sigGasConsumer opts),
    AnteDecorator.SigVerificationDecorator opts.HandlerOptions.AccountKeeper
      opts.HandlerOptions.SignModeHandler,
    AnteDecorator.IncrementSequenceDecorator opts.HandlerOptions.AccountKeeper,
    AnteDecorator.RedundantRelayDecorator opts.IBCkeeper ]

/-- The function `NewAnteHandler` of `ante/ante.go`. The result is the Go pair
`(sdk.AnteHandler, error)`, each component `none` for `nil`. -/
def NewAnteHandler (opts : HandlerOptions) : Option ChainedAnteHandler × Option WrappedError :=
  if opts.HandlerOptions.AccountKeeper = none then
    (none, some (Wrap RootError.ErrLogic "account keeper is required for AnteHandler"))
  else if opts.HandlerOptions.BankKeeper = none then
    (none, some (Wrap RootError.ErrLogic "bank keeper is required for AnteHandler"))
  else if opts.HandlerOptions.SignModeHandler = none then
    (none, some (Wrap RootError.ErrLogic "sign mode handler is required for AnteHandler"))
  else if opts.IBCkeeper = none then
    (none, some (Wrap RootError.ErrLogic "IBC keeper is required for AnteHandler"))
  else if opts.GlobalFeeSubspace.Name = "" then
    (none, some (Wrap RootError.ErrNotFound "globalfee param store is required for AnteHandler"))
  else if opts.StakingKeeper = none then
    (none, some (Wrap RootError.ErrNotFound "staking param store is required for AnteHandler"))
  else
    (ChainAnteDecorators (anteDecorators opts), none)

/-! ## Vocabulary of the specification -/

/-- The fifteen stage names of the specification's fixed ordering. -/
inductive Stage where
  | contextSetup
  | extensionOptionsCheck
  | basicStructuralValidation
  | timeoutHeightCheck
  | memoValidation
  | gasForSizeAccounting
  | governanceVoteInspection
  | minimumFeeEnforcement
  | feeDeduction
  | publicKeyBinding
  | signatureCountValidation
  | perSignatureGasAccounting
  | signatureVerification
  | sequenceIncrement
  | relayRedundancyCheck
  deriving DecidableEq, Repr

/-- The stage of the specification that a decorator value implements, whatever
its arguments. -/
def AnteDecorator.stage : AnteDecorator → Stage
  | .SetUpContextDecorator => .contextSetup
  | .ExtensionOptionsDecorator _ => .extensionOptionsCheck
  | .ValidateBasicDecorator => .basicStructuralValidation
  | .TxTimeoutHeightDecorator => .timeoutHeightCheck
  | .ValidateMemoDecorator _ => .memoValidation
  | .ConsumeGasForTxSizeDecorator _ => .gasForSizeAccounting
  | .GovVoteDecorator _ _ => .governanceVoteInspection
  | .FeeDecorator _ _ => .minimumFeeEnforcement
  | .DeductFeeDecorator _ _ _ _ => .feeDeduction
  | .SetPubKeyDecorator _ => .publicKeyBinding
  | .ValidateSigCountDecorator _ => .signatureCountValidation
  | .SigGasConsumeDecorator _ _ => .perSignatureGasAccounting
  | .SigVerificationDecorator _ _ => .signatureVerification
  | .IncrementSequenceDecorator _ => .sequenceIncrement
  | .RedundantRelayDecorator _ => .relayRedundancyCheck

/-- The specification's fixed ordering, outermost first. -/
def fixedOrdering : List Stage :=
  [ .contextSetup, .extensionOptionsCheck, .basicStructuralValidation,
    .timeoutHeightCheck, .memoValidation, .gasForSizeAccounting,
    .governanceVoteInspection, .minimumFeeEnforcement, .feeDeduction,
    .publicKeyBinding, .signatureCountValidation, .perSignatureGasAccounting,
    .signatureVerification, .sequenceIncrement, .relayRedundancyCheck ]

/-- The six fields whose presence `NewAnteHandler` checks. -/
inductive CheckedField where
  | AccountKeeper
  | BankKeeper
  | SignModeHandler
  | IBCkeeper
  | GlobalFeeSubspace
  | StakingKeeper
  deriving DecidableEq, Repr

/-- Whether a checked field is missing from the options: nil for the five
nullable ones, an empty name for the parameter store. -/
def CheckedField.missing (opts : HandlerOptions) : CheckedField → Bool
  | .AccountKeeper => opts.HandlerOptions.AccountKeeper.isNone
  | .BankKeeper => opts.HandlerOptions.BankKeeper.isNone
  | .SignModeHandler => opts.HandlerOptions.SignModeHandler.isNone
  | .IBCkeeper => opts.IBCkeeper.isNone
  | .GlobalFeeSubspace => opts.GlobalFeeSubspace.Name == ""
  | .StakingKeeper => opts.StakingKeeper.isNone

/-- The precedence in which missing fields are reported. -/
def precedence : List CheckedField :=
  [ .AccountKeeper, .BankKeeper, .SignModeHandler, .IBCkeeper,
    .GlobalFeeSubspace, .StakingKeeper ]

/-- The configuration error that belongs to a checked field. -/
def CheckedField.error : CheckedField → WrappedError
  | .AccountKeeper => Wrap RootError.ErrLogic "account keeper is required for AnteHandler"
  | .BankKeeper => Wrap RootError.ErrLogic "bank keeper is required for AnteHandler"
  | .SignModeHandler => Wrap RootError.ErrLogic "sign mode handler is required for AnteHandler"
  | .IBCkeeper => Wrap RootError.ErrLogic "IBC keeper is required for AnteHandler"
  | .GlobalFeeSubspace =>
      Wrap RootError.ErrNotFound "globalfee param store is required for AnteHandler"
  | .StakingKeeper =>
      Wrap RootError.ErrNotFound "staking param store is required for AnteHandler"

/-- The error of the first missing field in the precedence order, if any: the
specification-side account of what the constructor reports. -/
def firstMissingError (opts : HandlerOptions) : Option WrappedError :=
  (precedence.find? (CheckedField.missing opts)).map CheckedField.error

/-- Options that pass validation: all six checked fields are present. -/
def Valid (opts : HandlerOptions) : Prop :=
  opts.HandlerOptions.AccountKeeper ≠ none ∧ opts.HandlerOptions.BankKeeper ≠ none ∧
  opts.HandlerOptions.SignModeHandler ≠ none ∧ opts.IBCkeeper ≠ none ∧
  opts.GlobalFeeSubspace.Name ≠ "" ∧ opts.StakingKeeper ≠ none

instance (opts : HandlerOptions) : Decidable (Valid opts) := by
  unfold Valid; infer_instance

/-- Two option records agree on which of the six checked fields are present. -/
def SamePresence (o₁ o₂ : HandlerOptions) : Prop :=
  ∀ f ∈ precedence, CheckedField.missing o₁ f = CheckedField.missing o₂ f

instance (o₁ o₂ : HandlerOptions) : Decidable (SamePresence o₁ o₂) := by
  unfold SamePresence; infer_instance

/-! ## Sample inputs -/

/-- Options with every field supplied. -/
def fullOpts : HandlerOptions where
  HandlerOptions :=
    ⟨some ⟨1⟩, some ⟨2⟩, some ⟨3⟩, some ⟨4⟩, some ⟨5⟩,
      some (SignatureVerificationGasConsumer.custom 6), some ⟨7⟩⟩
  Codec := some ⟨8⟩
  IBCkeeper := some ⟨9⟩
  GlobalFeeSubspace := ⟨"globalfee"⟩
  StakingKeeper := some ⟨10⟩
  TxFeeChecker := some ⟨11⟩

/-- Options with the six checked fields supplied and every other field nil. -/
def bareOpts : HandlerOptions where
  HandlerOptions := ⟨some ⟨1⟩, some ⟨2⟩, none, none, some ⟨5⟩, none, none⟩
  Codec := none
  IBCkeeper := some ⟨9⟩
  GlobalFeeSubspace := ⟨"globalfee"⟩
  StakingKeeper := some ⟨10⟩
  TxFeeChecker := none

/-- The options `fullOpts` with the four mandatory collaborators set as given. -/
def fullOptsWith (ak : Option AccountKeeper) (bk : Option BankKeeper)
    (smh : Option SignModeHandler) (ibc : Option IBCKeeper) : HandlerOptions where
  HandlerOptions :=
    ⟨ak, bk, some ⟨3⟩, some ⟨4⟩, smh,
      some (SignatureVerificationGasConsumer.custom 6), some ⟨7⟩⟩
  Codec := some ⟨8⟩
  IBCkeeper := ibc
  GlobalFeeSubspace := ⟨"globalfee"⟩
  StakingKeeper := some ⟨10⟩
  TxFeeChecker := some ⟨11⟩

/-- The options `fullOpts` with the parameter store and the staking keeper set
as given. -/
def fullOptsSources (subspace : Subspace) (sk : Option StakingKeeper) : HandlerOptions where
  HandlerOptions :=
    ⟨some ⟨1⟩, some ⟨2⟩, some ⟨3⟩, some ⟨4⟩, some ⟨5⟩,
      some (SignatureVerificationGasConsumer.custom 6), some ⟨7⟩⟩
  Codec := some ⟨8⟩
  IBCkeeper := some ⟨9⟩
  GlobalFeeSubspace := subspace
  StakingKeeper := sk
  TxFeeChecker := some ⟨11⟩

/-! ## Execution -/

/-- The function type `sdk.AnteHandler`: from a context, a transaction and the
simulate flag to a new context and an error, `none` for a nil error. -/
abbrev AnteHandler (Ctx Tx Err : Type) := Ctx → Tx → Bool → Ctx × Option Err

/-- The method `AnteHandle` of the interface `sdk.AnteDecorator`, given for every
decorator value: it receives the context, the transaction, the simulate flag
and the continuation `next`. The decorator bodies are library code and stay a
parameter of the development. -/
abbrev AnteHandleFn (Ctx Tx Err : Type) :=
  AnteDecorator → Ctx → Tx → Bool → AnteHandler Ctx Tx Err → Ctx × Option Err

/-- Modelled from the spec: the chain-of-responsibility runner of section 4.2,
whose body (inside `sdk.ChainAnteDecorators`) is not among the sources. Stages
run in the order of the list; each stage receives, as `next`, a handle on the
remainder of the chain; the handler after the last stage returns the context
it was given and no error. -/
def runChain {Ctx Tx Err : Type} (AnteHandle : AnteHandleFn Ctx Tx Err) :
    List AnteDecorator → AnteHandler Ctx Tx Err
  | [] => fun ctx _ _ => (ctx, none)
  | d :: ds => fun ctx tx simulate => AnteHandle d ctx tx simulate (runChain AnteHandle ds)

/-- Calling the handler built by `ChainAnteDecorators`. -/
def ChainedAnteHandler.call {Ctx Tx Err : Type} (h : ChainedAnteHandler)
    (AnteHandle : AnteHandleFn Ctx Tx Err) : AnteHandler Ctx Tx Err :=
  runChain AnteHandle h.chain

/-- A sample context: a payer balance, a gas counter and the log of the stages
that were entered. -/
structure SampleContext where
  balance : Nat
  gas : Nat
  entered : List Stage
  deriving DecidableEq, Repr

/-- The sample context that stage `j` (counted from 1) receives when every
earlier stage charged one unit of gas and passed the transaction on. -/
def sampleContextAt (j : Nat) : SampleContext :=
  ⟨100, j - 1, fixedOrdering.take (j - 1)⟩

/-- Sample decorator bodies whose minimum-fee stage rejects every transaction
without calling `next`, whose fee-deduction stage debits ten units and whose
other stages charge one unit of gas; every stage logs that it was entered. -/
def sampleRejectFee : AnteHandleFn SampleContext Unit String
  | .FeeDecorator _ _, ctx, _, _, _ =>
      (⟨ctx.balance, ctx.gas, ctx.entered ++ [Stage.minimumFeeEnforcement]⟩,
        some "insufficient fee")
  | .DeductFeeDecorator _ _ _ _, ctx, tx, simulate, next =>
      next ⟨ctx.balance - 10, ctx.gas + 1, ctx.entered ++ [Stage.feeDeduction]⟩ tx simulate
  | d, ctx, tx, simulate, next =>
      next ⟨ctx.balance, ctx.gas + 1, ctx.entered ++ [d.stage]⟩ tx simulate

/-- Sample decorator bodies in which every stage charges one unit of gas and
passes on, except signature verification, which rejects without calling `next`. -/
def sampleRejectSignature : AnteHandleFn SampleContext Unit String
  | .SigVerificationDecorator _ _, ctx, _, _, _ =>
      (⟨ctx.balance, ctx.gas, ctx.entered ++ [Stage.signatureVerification]⟩,
        some "signature verification failed")
  | d, ctx, tx, simulate, next =>
      next ⟨ctx.balance, ctx.gas + 1, ctx.entered ++ [d.stage]⟩ tx simulate

/-- On the transaction `tx`, the body of the decorator `d` returns an error and
never uses its continuation, in whatever context and mode it is run. -/
def RejectsWithoutNext {Ctx Tx Err : Type} (AnteHandle : AnteHandleFn Ctx Tx Err)
    (d : AnteDecorator) (tx : Tx) : Prop :=
  ∀ ctx simulate, ∃ c' e, ∀ next, AnteHandle d ctx tx simulate next = (c', some e)

/-- On the transaction `tx`, the body of the decorator `d` hands on the
transaction it was given: its result depends on its continuation only through
what the continuation does on `tx`. -/
def PassesSameTx {Ctx Tx Err : Type} (AnteHandle : AnteHandleFn Ctx Tx Err)
    (d : AnteDecorator) (tx : Tx) : Prop :=
  ∀ next next' : AnteHandler Ctx Tx Err,
    (∀ ctx simulate, next ctx tx simulate = next' ctx tx simulate) →
    ∀ ctx simulate, AnteHandle d ctx tx simulate next = AnteHandle d ctx tx simulate next'

/-- On the transaction `tx`, the handler returns a context with the balance of
the context it was given. -/
def KeepsBalance {Ctx Tx Err Bal : Type} (balance : Ctx → Bal) (tx : Tx)
    (handler : AnteHandler Ctx Tx Err) : Prop :=
  ∀ ctx simulate, balance (handler ctx tx simulate).1 = balance ctx

/-- On the transaction `tx`, the body of the decorator `d` leaves the balance as
its continuation leaves it: followed by a continuation that keeps the balance,
it keeps the balance. -/
def LeavesBalanceToNext {Ctx Tx Err Bal : Type} (AnteHandle : AnteHandleFn Ctx Tx Err)
    (balance : Ctx → Bal) (d : AnteDecorator) (tx : Tx) : Prop :=
  ∀ next : AnteHandler Ctx Tx Err, KeepsBalance balance tx next →
    KeepsBalance balance tx (fun ctx t simulate => AnteHandle d ctx t simulate next)

/-- Sample decorator bodies like `sampleRejectFee`, except that the
fee-deduction stage empties the payer's balance. -/
def sampleRejectFeeDrain : AnteHandleFn SampleContext Unit String
  | .DeductFeeDecorator _ _ _ _, ctx, tx, simulate, next =>
      next ⟨0, ctx.gas + 1, ctx.entered ++ [Stage.feeDeduction]⟩ tx simulate
  | d, ctx, tx, simulate, next => sampleRejectFee d ctx tx simulate next

/-- Sample decorator bodies like `sampleRejectFee`, except that the
governance-vote stage debits five units from the payer before passing on. -/
def sampleEarlyDebit : AnteHandleFn SampleContext Unit String
  | .GovVoteDecorator _ _, ctx, tx, simulate, next =>
      next ⟨ctx.balance - 5, ctx.gas + 1,
        ctx.entered ++ [Stage.governanceVoteInspection]⟩ tx simulate
  | d, ctx, tx, simulate, next => sampleRejectFee d ctx tx simulate next

/-- Sample decorator bodies in which context setup wraps the remainder of the
chain and turns whatever it returns into a result without error, the
extension-options stage rejects without calling `next`, and every other stage
charges one unit of gas and passes on. -/
def sampleSwallow : AnteHandleFn SampleContext Unit String
  | .SetUpContextDecorator, ctx, tx, simulate, next =>
      ((next ⟨ctx.balance, ctx.gas + 1, ctx.entered ++ [Stage.contextSetup]⟩ tx simulate).1,
        none)
  | .ExtensionOptionsDecorator _, ctx, _, _, _ =>
      (⟨ctx.balance, ctx.gas, ctx.entered ++ [Stage.extensionOptionsCheck]⟩,
        some "unknown extension options")
  | d, ctx, tx, simulate, next =>
      next ⟨ctx.balance, ctx.gas + 1, ctx.entered ++ [d.stage]⟩ tx simulate

/-! ## Construction: helper lemmas -/

theorem NewAnteHandler_of_valid (opts : HandlerOptions) (h : Valid opts) :
    NewAnteHandler opts = (some ⟨anteDecorators opts⟩, none) := by
  obtain ⟨h1, h2, h3, h4, h5, h6⟩ := h
  simp [NewAnteHandler, h1, h2, h3, h4, h5, h6, ChainAnteDecorators, anteDecorators]

theorem NewAnteHandler_of_not_valid (opts : HandlerOptions) (h : ¬ Valid opts) :
    (NewAnteHandler opts).1 = none ∧ (NewAnteHandler opts).2 ≠ none := by
  unfold Valid at h
  unfold NewAnteHandler
  split_ifs <;> simp_all

theorem NewAnteHandler_error_eq_firstMissingError (opts : HandlerOptions) :
    (NewAnteHandler opts).2 = firstMissingError opts := by
  unfold NewAnteHandler firstMissingError precedence
  have hb : (opts.GlobalFeeSubspace.Name == "") = decide (opts.GlobalFeeSubspace.Name = "") := by
    by_cases h : opts.GlobalFeeSubspace.Name = "" <;> simp [h]
  cases h1 : opts.HandlerOptions.AccountKeeper <;>
  cases h2 : opts.HandlerOptions.BankKeeper <;>
  cases h3 : opts.HandlerOptions.SignModeHandler <;>
  cases h4 : opts.IBCkeeper <;>
  cases h6 : opts.StakingKeeper <;>
  by_cases h5 : opts.GlobalFeeSubspace.Name = "" <;>
  simp [CheckedField.missing, CheckedField.error, List.find?, h1, h2, h3, h4, h5, h6, hb]

theorem NewAnteHandler_handler_isSome (opts : HandlerOptions) :
    (NewAnteHandler opts).1.isSome = (NewAnteHandler opts).2.isNone := by
  unfold NewAnteHandler
  split_ifs <;> simp [ChainAnteDecorators, anteDecorators]

theorem firstMissingError_congr (o₁ o₂ : HandlerOptions) (h : SamePresence o₁ o₂) :
    firstMissingError o₁ = firstMissingError o₂ := by
  have hm : ∀ f, CheckedField.missing o₁ f = CheckedField.missing o₂ f := by
    intro f
    apply h
    cases f <;> simp [precedence]
  have hfun : CheckedField.missing o₁ = CheckedField.missing o₂ := funext hm
  simp [firstMissingError, hfun]

theorem NewAnteHandler_handler_eq (opts : HandlerOptions) (h : ChainedAnteHandler)
    (hres : (NewAnteHandler opts).1 = some h) : h = ⟨anteDecorators opts⟩ := by
  by_cases hv : Valid opts
  · rw [NewAnteHandler_of_valid opts hv] at hres
    exact (Option.some.inj hres).symm
  · rw [(NewAnteHandler_of_not_valid opts hv).1] at hres
    exact absurd hres (by simp)

/-! ## Execution: helper lemmas -/

/-- If the stages before position `k` (counted from 0) hand the contexts
`cs 0, cs 1, ...` on to their continuation and the stage at position `k`
returns `(c', some e)` whatever its continuation, the chain returns
`(c', some e)`. -/
theorem runChain_reject_at {Ctx Tx Err : Type} (AnteHandle : AnteHandleFn Ctx Tx Err)
    (tx : Tx) (simulate : Bool) (c' : Ctx) (e : Err) :
    ∀ (l : List AnteDecorator) (k : Nat) (cs : Nat → Ctx), k < l.length →
      (∀ j, j < k → ∀ d, l[j]? = some d →
        ∀ next, AnteHandle d (cs j) tx simulate next = next (cs (j + 1)) tx simulate) →
      (∀ d, l[k]? = some d → ∀ next, AnteHandle d (cs k) tx simulate next = (c', some e)) →
      runChain AnteHandle l (cs 0) tx simulate = (c', some e) := by
  intro l
  induction l with
  | nil => intro k cs hk; simp at hk
  | cons d ds ih =>
    intro k cs hk hpass hrej
    cases k with
    | zero =>
      simp only [runChain]
      exact hrej d (by simp) _
    | succ k =>
      simp only [runChain]
      rw [hpass 0 (Nat.succ_pos k) d (by simp)]
      refine ih k (fun j => cs (j + 1)) (by simpa using hk) ?_ ?_
      · intro j hj d' hd' next
        exact hpass (j + 1) (by omega) d' (by simpa using hd') next
      · intro d' hd' next
        exact hrej d' (by simpa using hd') next

/-- The same with positions counted from 1 and a second family of decorator
bodies that agrees with the first on the stages up to `k`. -/
theorem runChain_reject_at_of_agree {Ctx Tx Err : Type}
    (AnteHandle AnteHandle' : AnteHandleFn Ctx Tx Err)
    (tx : Tx) (simulate : Bool) (c' : Ctx) (e : Err) (l : List AnteDecorator)
    (k : Nat) (cs : Nat → Ctx) (hk1 : 1 ≤ k) (hk : k ≤ l.length)
    (hpass : ∀ j, 1 ≤ j → j < k → ∀ d, l[j - 1]? = some d →
      ∀ next, AnteHandle d (cs j) tx simulate next = next (cs (j + 1)) tx simulate)
    (hrej : ∀ d, l[k - 1]? = some d →
      ∀ next, AnteHandle d (cs k) tx simulate next = (c', some e))
    (hagree : ∀ j, 1 ≤ j → j ≤ k → ∀ d, l[j - 1]? = some d → AnteHandle' d = AnteHandle d) :
    runChain AnteHandle' l (cs 1) tx simulate = (c', some e) := by
  refine runChain_reject_at AnteHandle' tx simulate c' e l (k - 1) (fun j => cs (j + 1))
    (by omega) ?_ ?_
  · intro j hj d hd next
    rw [hagree (j + 1) (by omega) (by omega) d (by simpa using hd)]
    exact hpass (j + 1) (by omega) (by omega) d (by simpa using hd) next
  · intro d hd next
    rw [hagree k hk1 (le_refl k) d hd]
    have hkk : k - 1 + 1 = k := by omega
    simpa [hkk] using hrej d hd next

/-- A chain whose stages before `d` leave the balance to their continuation, and
whose stage `d` does so too and rejects `tx` without using its continuation,
keeps the balance on `tx`, whatever the stages after `d` are. -/
theorem runChain_keepsBalance_of_reject {Ctx Tx Err Bal : Type}
    (AnteHandle : AnteHandleFn Ctx Tx Err) (balance : Ctx → Bal) (tx : Tx)
    (d : AnteDecorator) (post : List AnteDecorator)
    (hd : LeavesBalanceToNext AnteHandle balance d tx)
    (hrej : RejectsWithoutNext AnteHandle d tx) :
    ∀ pre : List AnteDecorator,
      (∀ p ∈ pre, LeavesBalanceToNext AnteHandle balance p tx) →
      KeepsBalance balance tx (runChain AnteHandle (pre ++ d :: post)) := by
  intro pre
  induction pre with
  | nil =>
    intro _ ctx simulate
    obtain ⟨c', e, hce⟩ := hrej ctx simulate
    have hkeep : KeepsBalance balance tx (fun (c : Ctx) (_ : Tx) (_ : Bool) =>
        ((c, none) : Ctx × Option Err)) := fun _ _ => rfl
    have h0 := hd _ hkeep ctx simulate
    simp only [hce] at h0
    simp only [List.nil_append, runChain, hce]
    exact h0
  | cons p pre ih =>
    intro hpre
    have hp := hpre p (List.mem_cons_self p pre)
    have hrest := ih (fun q hq => hpre q (List.mem_cons_of_mem p hq))
    exact hp _ hrest

/-- Two families of decorator bodies that agree on the stages up to `d` give the
same result on `tx` when `d` rejects `tx` without using its continuation and
the stages before `d` hand the transaction on, whatever the stages after `d`
are in either family. -/
theorem runChain_congr_of_reject {Ctx Tx Err : Type}
    (AnteHandle AnteHandle' : AnteHandleFn Ctx Tx Err) (tx : Tx)
    (d : AnteDecorator) (post : List AnteDecorator)
    (hd : AnteHandle' d = AnteHandle d)
    (hrej : RejectsWithoutNext AnteHandle d tx) :
    ∀ pre : List AnteDecorator,
      (∀ p ∈ pre, PassesSameTx AnteHandle p tx) →
      (∀ p ∈ pre, AnteHandle' p = AnteHandle p) →
      ∀ ctx simulate, runChain AnteHandle' (pre ++ d :: post) ctx tx simulate =
        runChain AnteHandle (pre ++ d :: post) ctx tx simulate := by
  intro pre
  induction pre with
  | nil =>
    intro _ _ ctx simulate
    obtain ⟨c', e, hce⟩ := hrej ctx simulate
    simp only [List.nil_append, runChain, hd, hce]
  | cons p pre ih =>
    intro hpass hagree ctx simulate
    have hrest := ih (fun q hq => hpass q (List.mem_cons_of_mem p hq))
      (fun q hq => hagree q (List.mem_cons_of_mem p hq))
    simp only [List.cons_append, runChain, hagree p (List.mem_cons_self p pre)]
    exact hpass p (List.mem_cons_self p pre) _ _ hrest ctx simulate

/-! ## Construction: the claims -/

/-- C1: when exactly one of the four mandatory collaborators is nil and every
other checked field is present, `NewAnteHandler` returns a nil handler and the
`ErrLogic` error whose message names that collaborator followed by
"is required for AnteHandler". -/
theorem NewAnteHandler_one_mandatory_missing (opts : HandlerOptions) :
    opts.GlobalFeeSubspace.Name ≠ "" → opts.StakingKeeper ≠ none →
    (opts.HandlerOptions.AccountKeeper = none → opts.HandlerOptions.BankKeeper ≠ none →
      opts.HandlerOptions.SignModeHandler ≠ none → opts.IBCkeeper ≠ none →
      NewAnteHandler opts =
        (none, some (Wrap RootError.ErrLogic "account keeper is required for AnteHandler"))) ∧
    (opts.HandlerOptions.AccountKeeper ≠ none → opts.HandlerOptions.BankKeeper = none →
      opts.HandlerOptions.SignModeHandler ≠ none → opts.IBCkeeper ≠ none →
      NewAnteHandler opts =
        (none, some (Wrap RootError.ErrLogic "bank keeper is required for AnteHandler"))) ∧
    (opts.HandlerOptions.AccountKeeper ≠ none → opts.HandlerOptions.BankKeeper ≠ none →
      opts.HandlerOptions.SignModeHandler = none → opts.IBCkeeper ≠ none →
      NewAnteHandler opts =
        (none, some (Wrap RootError.ErrLogic "sign mode handler is required for AnteHandler"))) ∧
    (opts.HandlerOptions.AccountKeeper ≠ none → opts.HandlerOptions.BankKeeper ≠ none →
      opts.HandlerOptions.SignModeHandler ≠ none → opts.IBCkeeper = none →
      NewAnteHandler opts =
        (none, some (Wrap RootError.ErrLogic "IBC keeper is required for AnteHandler"))) := by
  intro _ _
  refine ⟨?_, ?_, ?_, ?_⟩ <;> intro h1 h2 h3 h4 <;>
    simp [NewAnteHandler, h1, h2, h3, h4]

/-- Witness for C1: each of the four mandatory collaborators removed in turn from
the fully supplied options. -/
theorem NewAnteHandler_one_mandatory_missing_witness :
    NewAnteHandler (fullOptsWith none (some ⟨2⟩) (some ⟨5⟩) (some ⟨9⟩)) =
      (none, some (Wrap RootError.ErrLogic "account keeper is required for AnteHandler")) ∧
    NewAnteHandler (fullOptsWith (some ⟨1⟩) none (some ⟨5⟩) (some ⟨9⟩)) =
      (none, some (Wrap RootError.ErrLogic "bank keeper is required for AnteHandler")) ∧
    NewAnteHandler (fullOptsWith (some ⟨1⟩) (some ⟨2⟩) none (some ⟨9⟩)) =
      (none, some (Wrap RootError.ErrLogic "sign mode handler is required for AnteHandler")) ∧
    NewAnteHandler (fullOptsWith (some ⟨1⟩) (some ⟨2⟩) (some ⟨5⟩) none) =
      (none, some (Wrap RootError.ErrLogic "IBC keeper is required for AnteHandler")) :=
  ⟨(NewAnteHandler_one_mandatory_missing _ (by decide) (by decide)).1
      rfl (by decide) (by decide) (by decide),
   (NewAnteHandler_one_mandatory_missing _ (by decide) (by decide)).2.1
      (by decide) rfl (by decide) (by decide),
   (NewAnteHandler_one_mandatory_missing _ (by decide) (by decide)).2.2.1
      (by decide) (by decide) rfl (by decide),
   (NewAnteHandler_one_mandatory_missing _ (by decide) (by decide)).2.2.2
      (by decide) (by decide) (by decide) rfl⟩

/-- C2: with the four mandatory collaborators present, an empty parameter-store
name or a nil staking keeper makes `NewAnteHandler` return a nil handler and an
`ErrNotFound` error: the globalfee one when the store name is empty, the staking
one when the store is named and the staking keeper is nil. -/
theorem NewAnteHandler_parameter_source_missing (opts : HandlerOptions)
    (h1 : opts.HandlerOptions.AccountKeeper ≠ none)
    (h2 : opts.HandlerOptions.BankKeeper ≠ none)
    (h3 : opts.HandlerOptions.SignModeHandler ≠ none)
    (h4 : opts.IBCkeeper ≠ none) :
    (opts.GlobalFeeSubspace.Name = "" →
      NewAnteHandler opts =
        (none, some (Wrap RootError.ErrNotFound
          "globalfee param store is required for AnteHandler"))) ∧
    (opts.GlobalFeeSubspace.Name ≠ "" → opts.StakingKeeper = none →
      NewAnteHandler opts =
        (none, some (Wrap RootError.ErrNotFound
          "staking param store is required for AnteHandler"))) ∧
    (opts.GlobalFeeSubspace.Name = "" ∨ opts.StakingKeeper = none →
      (NewAnteHandler opts).1 = none ∧
      ∃ e, (NewAnteHandler opts).2 = some e ∧ e.parent = RootError.ErrNotFound) := by
  refine ⟨?_, ?_, ?_⟩
  · intro h5
    simp [NewAnteHandler, h1, h2, h3, h4, h5]
  · intro h5 h6
    simp [NewAnteHandler, h1, h2, h3, h4, h5, h6]
  · intro h
    by_cases h5 : opts.GlobalFeeSubspace.Name = ""
    · simp [NewAnteHandler, h1, h2, h3, h4, h5, Wrap]
    · have h6 : opts.StakingKeeper = none := h.resolve_left h5
      simp [NewAnteHandler, h1, h2, h3, h4, h5, h6, Wrap]

/-- Witness for C2: the fully supplied options with an unnamed parameter store
and no staking keeper. -/
theorem NewAnteHandler_parameter_source_missing_witness :
    (NewAnteHandler (fullOptsSources ⟨""⟩ none)).1 = none ∧
    ∃ e, (NewAnteHandler (fullOptsSources ⟨""⟩ none)).2 = some e ∧
      e.parent = RootError.ErrNotFound :=
  (NewAnteHandler_parameter_source_missing (fullOptsSources ⟨""⟩ none)
    (by decide) (by decide) (by decide) (by decide)).2.2 (Or.inl rfl)

/-- C3: `NewAnteHandler` returns a handler and no error exactly when the five
nullable checked fields are non-nil and the parameter store has a non-empty
name, and a nil handler with an error otherwise; never both, never neither. -/
theorem NewAnteHandler_handler_xor_error (opts : HandlerOptions) :
    (((NewAnteHandler opts).1 ≠ none ∧ (NewAnteHandler opts).2 = none) ↔
      (opts.HandlerOptions.AccountKeeper ≠ none ∧ opts.HandlerOptions.BankKeeper ≠ none ∧
       opts.HandlerOptions.SignModeHandler ≠ none ∧ opts.IBCkeeper ≠ none ∧
       opts.StakingKeeper ≠ none ∧ opts.GlobalFeeSubspace.Name ≠ "")) ∧
    (¬ (opts.HandlerOptions.AccountKeeper ≠ none ∧ opts.HandlerOptions.BankKeeper ≠ none ∧
       opts.HandlerOptions.SignModeHandler ≠ none ∧ opts.IBCkeeper ≠ none ∧
       opts.StakingKeeper ≠ none ∧ opts.GlobalFeeSubspace.Name ≠ "") →
      (NewAnteHandler opts).1 = none ∧ (NewAnteHandler opts).2 ≠ none) ∧
    ¬ ((NewAnteHandler opts).1 ≠ none ∧ (NewAnteHandler opts).2 ≠ none) ∧
    ¬ ((NewAnteHandler opts).1 = none ∧ (NewAnteHandler opts).2 = none) := by
  by_cases hv : Valid opts
  · have hr := NewAnteHandler_of_valid opts hv
    obtain ⟨h1, h2, h3, h4, h5, h6⟩ := hv
    simp [hr, h1, h2, h3, h4, h5, h6]
  · obtain ⟨hn, he⟩ := NewAnteHandler_of_not_valid opts hv
    have hv' : ¬ (opts.HandlerOptions.AccountKeeper ≠ none ∧
        opts.HandlerOptions.BankKeeper ≠ none ∧
        opts.HandlerOptions.SignModeHandler ≠ none ∧ opts.IBCkeeper ≠ none ∧
        opts.StakingKeeper ≠ none ∧ opts.GlobalFeeSubspace.Name ≠ "") := by
      intro h
      exact hv ⟨h.1, h.2.1, h.2.2.1, h.2.2.2.1, h.2.2.2.2.2, h.2.2.2.2.1⟩
    refine ⟨⟨fun h => absurd hn h.1, fun h => absurd h hv'⟩, fun _ => ⟨hn, he⟩,
      fun h => h.1 hn, fun h => he h.2⟩

/-- Witness for C3: the fully supplied options yield a handler and no error;
without the account keeper they yield an error and no handler. -/
theorem NewAnteHandler_handler_xor_error_witness :
    ((NewAnteHandler fullOpts).1 ≠ none ∧ (NewAnteHandler fullOpts).2 = none) ∧
    ((NewAnteHandler (fullOptsWith none (some ⟨2⟩) (some ⟨5⟩) (some ⟨9⟩))).1 = none ∧
      (NewAnteHandler (fullOptsWith none (some ⟨2⟩) (some ⟨5⟩) (some ⟨9⟩))).2 ≠ none) :=
  ⟨(NewAnteHandler_handler_xor_error fullOpts).1.2 (by decide),
   (NewAnteHandler_handler_xor_error
      (fullOptsWith none (some ⟨2⟩) (some ⟨5⟩) (some ⟨9⟩))).2.1 (by decide)⟩

/-- C4: for options that pass validation, the handler holds exactly fifteen
decorators, and their stages are the fixed ordering of the specification,
whatever the option values. -/
theorem NewAnteHandler_fixed_ordering (opts : HandlerOptions) (hv : Valid opts) :
    ∃ h, NewAnteHandler opts = (some h, none) ∧ h.chain.length = 15 ∧
      h.chain.map AnteDecorator.stage =
        [ Stage.contextSetup, Stage.extensionOptionsCheck, Stage.basicStructuralValidation,
          Stage.timeoutHeightCheck, Stage.memoValidation, Stage.gasForSizeAccounting,
          Stage.governanceVoteInspection, Stage.minimumFeeEnforcement, Stage.feeDeduction,
          Stage.publicKeyBinding, Stage.signatureCountValidation,
          Stage.perSignatureGasAccounting, Stage.signatureVerification,
          Stage.sequenceIncrement, Stage.relayRedundancyCheck ] :=
  ⟨⟨anteDecorators opts⟩, NewAnteHandler_of_valid opts hv, rfl, rfl⟩

/-- Witness for C4: the ordering built from the fully supplied options and from
the options with every unchecked field nil. -/
theorem NewAnteHandler_fixed_ordering_witness :
    (∃ h, NewAnteHandler fullOpts = (some h, none) ∧ h.chain.length = 15 ∧
      h.chain.map AnteDecorator.stage = fixedOrdering) ∧
    (∃ h, NewAnteHandler bareOpts = (some h, none) ∧ h.chain.length = 15 ∧
      h.chain.map AnteDecorator.stage = fixedOrdering) :=
  ⟨NewAnteHandler_fixed_ordering fullOpts (by decide),
   NewAnteHandler_fixed_ordering bareOpts (by decide)⟩

/-- C5: for options that pass validation, construction succeeds whether or not
a signature gas consumer was supplied; the per-signature gas stage (position 12)
holds the caller's consumer when there is one and the SDK default otherwise;
and no per-signature gas stage of the handler holds a nil consumer. -/
theorem NewAnteHandler_sigGasConsumer_default (opts : HandlerOptions) (hv : Valid opts) :
    ∃ h, NewAnteHandler opts = (some h, none) ∧
      (∀ f, opts.HandlerOptions.SigGasConsumer = some f →
        h.chain[11]? = some (AnteDecorator.SigGasConsumeDecorator
          opts.HandlerOptions.AccountKeeper (some f))) ∧
      (opts.HandlerOptions.SigGasConsumer = none →
        h.chain[11]? = some (AnteDecorator.SigGasConsumeDecorator
          opts.HandlerOptions.AccountKeeper
          (some SignatureVerificationGasConsumer.DefaultSigVerificationGasConsumer))) ∧
      (∀ ak g, AnteDecorator.SigGasConsumeDecorator ak g ∈ h.chain → g ≠ none) ∧
      (∀ d ∈ h.chain, d.stage = Stage.perSignatureGasAccounting → h.chain[11]? = some d) := by
  refine ⟨⟨anteDecorators opts⟩, NewAnteHandler_of_valid opts hv, ?_, ?_, ?_, ?_⟩
  · intro f hf
    simp [anteDecorators, sigGasConsumer, hf]
  · intro hf
    simp [anteDecorators, sigGasConsumer, hf]
  · intro ak g hmem
    cases hsg : opts.HandlerOptions.SigGasConsumer <;>
      simp [anteDecorators, sigGasConsumer, hsg] at hmem <;>
      simp [hmem.2]
  · intro d hd hst
    simp only [anteDecorators, List.mem_cons, List.mem_singleton, List.not_mem_nil,
      or_false] at hd
    rcases hd with hd | hd | hd | hd | hd | hd | hd | hd | hd | hd | hd | hd | hd | hd | hd <;>
      subst hd <;> simp [AnteDecorator.stage, anteDecorators] at hst ⊢

/-- Witness for C5: the options with every unchecked field nil, among them the
signature gas consumer. -/
theorem NewAnteHandler_sigGasConsumer_default_witness :
    bareOpts.HandlerOptions.SigGasConsumer = none ∧
    ∃ h, NewAnteHandler bareOpts = (some h, none) ∧
      h.chain[11]? = some (AnteDecorator.SigGasConsumeDecorator
        bareOpts.HandlerOptions.AccountKeeper
        (some SignatureVerificationGasConsumer.DefaultSigVerificationGasConsumer)) := by
  obtain ⟨h, hr, _, hd, _, _⟩ := NewAnteHandler_sigGasConsumer_default bareOpts (by decide)
  exact ⟨rfl, h, hr, hd rfl⟩

/-- C8: in every handler that `NewAnteHandler` builds, each stage occurs once;
context setup is at the head, before every other stage; public-key binding is
strictly before signature-count validation, per-signature gas accounting and
signature verification; sequence increment is after signature verification;
and the relay redundancy check is last. -/
theorem NewAnteHandler_ordering_constraints (opts : HandlerOptions) (hv : Valid opts) :
    ∃ h, NewAnteHandler opts = (some h, none) ∧
      (h.chain.map AnteDecorator.stage).Nodup ∧
      (h.chain.map AnteDecorator.stage).head? = some Stage.contextSetup ∧
      (∀ t ∈ h.chain.map AnteDecorator.stage, t ≠ Stage.contextSetup →
        (h.chain.map AnteDecorator.stage).indexOf Stage.contextSetup <
          (h.chain.map AnteDecorator.stage).indexOf t) ∧
      (h.chain.map AnteDecorator.stage).indexOf Stage.publicKeyBinding <
        (h.chain.map AnteDecorator.stage).indexOf Stage.signatureCountValidation ∧
      (h.chain.map AnteDecorator.stage).indexOf Stage.publicKeyBinding <
        (h.chain.map AnteDecorator.stage).indexOf Stage.perSignatureGasAccounting ∧
      (h.chain.map AnteDecorator.stage).indexOf Stage.publicKeyBinding <
        (h.chain.map AnteDecorator.stage).indexOf Stage.signatureVerification ∧
      (h.chain.map AnteDecorator.stage).indexOf Stage.signatureVerification <
        (h.chain.map AnteDecorator.stage).indexOf Stage.sequenceIncrement ∧
      (h.chain.map AnteDecorator.stage).getLast? = some Stage.relayRedundancyCheck := by
  refine ⟨⟨anteDecorators opts⟩, NewAnteHandler_of_valid opts hv, ?_⟩
  have hs : (anteDecorators opts).map AnteDecorator.stage = fixedOrdering := rfl
  simp only [hs]
  decide

/-- Witness for C8: the ordering constraints on the handler built from the fully
supplied options. -/
theorem NewAnteHandler_ordering_constraints_witness :
    ∃ h, NewAnteHandler fullOpts = (some h, none) ∧
      (h.chain.map AnteDecorator.stage).head? = some Stage.contextSetup ∧
      (h.chain.map AnteDecorator.stage).indexOf Stage.publicKeyBinding <
        (h.chain.map AnteDecorator.stage).indexOf Stage.signatureCountValidation ∧
      (h.chain.map AnteDecorator.stage).getLast? = some Stage.relayRedundancyCheck := by
  obtain ⟨h, hr, _, hhead, _, hpk, _, _, _, hlast⟩ :=
    NewAnteHandler_ordering_constraints fullOpts (by decide)
  exact ⟨h, hr, hhead, hpk, hlast⟩

/-- C9: the error that `NewAnteHandler` returns is, for every option record, the
error of the first missing field in the precedence AccountKeeper, BankKeeper,
SignModeHandler, IBCkeeper, GlobalFeeSubspace, StakingKeeper (and no error when
none is missing); an `ErrNotFound` error is returned only when the four
`ErrLogic`-checked collaborators are all present. -/
theorem NewAnteHandler_reports_first_missing (opts : HandlerOptions) :
    (NewAnteHandler opts).2 =
      ([ CheckedField.AccountKeeper, CheckedField.BankKeeper, CheckedField.SignModeHandler,
         CheckedField.IBCkeeper, CheckedField.GlobalFeeSubspace,
         CheckedField.StakingKeeper ].find? (CheckedField.missing opts)).map
        CheckedField.error ∧
    (∀ e, (NewAnteHandler opts).2 = some e → e.parent = RootError.ErrNotFound →
      opts.HandlerOptions.AccountKeeper ≠ none ∧ opts.HandlerOptions.BankKeeper ≠ none ∧
      opts.HandlerOptions.SignModeHandler ≠ none ∧ opts.IBCkeeper ≠ none) := by
  refine ⟨NewAnteHandler_error_eq_firstMissingError opts, ?_⟩
  intro e he hp
  unfold NewAnteHandler at he
  split_ifs at he with h1 h2 h3 h4 h5 h6 <;>
    simp only [Option.some.injEq, Wrap] at he <;>
    first
      | exact ⟨h1, h2, h3, h4⟩
      | (subst he; simp at hp)

/-- Witness for C9: with the parameter store unnamed and the staking keeper nil,
the globalfee error is the one reported, and the four mandatory collaborators
are present. -/
theorem NewAnteHandler_reports_first_missing_witness :
    (NewAnteHandler (fullOptsSources ⟨""⟩ none)).2 =
      some (Wrap RootError.ErrNotFound "globalfee param store is required for AnteHandler") ∧
    (fullOptsSources ⟨""⟩ none).HandlerOptions.AccountKeeper ≠ none ∧
    (fullOptsSources ⟨""⟩ none).HandlerOptions.BankKeeper ≠ none ∧
    (fullOptsSources ⟨""⟩ none).HandlerOptions.SignModeHandler ≠ none ∧
    (fullOptsSources ⟨""⟩ none).IBCkeeper ≠ none :=
  ⟨by decide,
   (NewAnteHandler_reports_first_missing (fullOptsSources ⟨""⟩ none)).2
      (Wrap RootError.ErrNotFound "globalfee param store is required for AnteHandler")
      (by decide) rfl⟩

/-- C10: two option records that agree on the presence of the six checked
fields get the same success or failure and the same error from
`NewAnteHandler`, whatever their other fields; and when the six are present,
construction succeeds and the codec, the feegrant keeper, the extension option
checker and the fee checker reach their stages exactly as supplied, nil or
not. -/
theorem NewAnteHandler_depends_on_checked_fields (o₁ o₂ : HandlerOptions)
    (hp : SamePresence o₁ o₂) :
    (NewAnteHandler o₁).2 = (NewAnteHandler o₂).2 ∧
    (NewAnteHandler o₁).1.isSome = (NewAnteHandler o₂).1.isSome ∧
    (Valid o₁ →
      ∃ h, NewAnteHandler o₁ = (some h, none) ∧
        h.chain[1]? = some (AnteDecorator.ExtensionOptionsDecorator
          o₁.HandlerOptions.ExtensionOptionChecker) ∧
        h.chain[6]? = some (AnteDecorator.GovVoteDecorator o₁.Codec o₁.StakingKeeper) ∧
        h.chain[8]? = some (AnteDecorator.DeductFeeDecorator o₁.HandlerOptions.AccountKeeper
          o₁.HandlerOptions.BankKeeper o₁.HandlerOptions.FeegrantKeeper o₁.TxFeeChecker)) := by
  have he : (NewAnteHandler o₁).2 = (NewAnteHandler o₂).2 := by
    rw [NewAnteHandler_error_eq_firstMissingError, NewAnteHandler_error_eq_firstMissingError]
    exact firstMissingError_congr o₁ o₂ hp
  refine ⟨he, ?_, ?_⟩
  · rw [NewAnteHandler_handler_isSome, NewAnteHandler_handler_isSome, he]
  · intro hv
    exact ⟨⟨anteDecorators o₁⟩, NewAnteHandler_of_valid o₁ hv, rfl, rfl, rfl⟩

/-- Witness for C10: the options with every unchecked field nil against the fully
supplied options. -/
theorem NewAnteHandler_depends_on_checked_fields_witness :
    SamePresence bareOpts fullOpts ∧
    (NewAnteHandler bareOpts).2 = (NewAnteHandler fullOpts).2 ∧
    (NewAnteHandler bareOpts).1.isSome = (NewAnteHandler fullOpts).1.isSome ∧
    ∃ h, NewAnteHandler bareOpts = (some h, none) ∧
      h.chain[1]? = some (AnteDecorator.ExtensionOptionsDecorator none) ∧
      h.chain[6]? = some (AnteDecorator.GovVoteDecorator none (some ⟨10⟩)) ∧
      h.chain[8]? = some (AnteDecorator.DeductFeeDecorator (some ⟨1⟩) (some ⟨2⟩) none none) :=
  have h := NewAnteHandler_depends_on_checked_fields bareOpts fullOpts (by decide)
  ⟨by decide, h.1, h.2.1, h.2.2 (by decide)⟩

/-! ## Execution: the claims -/

/-- C6, as amended: on the handler built by `NewAnteHandler`, run as a chain of
responsibility, if stages 1 to k-1 hand the contexts `cs 1, ..., cs k` on to
their continuation and return its result unchanged, and stage k (1 ≤ k ≤ 15),
given `cs k`, returns the context `c'` and the error `e` without using its
continuation, then the handler returns exactly `(c', some e)`: the error of
stage k and the context stage k produced from what stages 1 to k-1 handed it.
The same result is returned whatever the bodies of stages k+1 to 15 are
(taken by position, or by the stage names after the first k of the fixed
ordering), so none of them is invoked. -/
theorem NewAnteHandler_chain_short_circuits {Ctx Tx Err : Type}
    (opts : HandlerOptions) (h : ChainedAnteHandler)
    (hres : (NewAnteHandler opts).1 = some h)
    (AnteHandle : AnteHandleFn Ctx Tx Err) (tx : Tx) (simulate : Bool)
    (k : Nat) (hk1 : 1 ≤ k) (hk : k ≤ 15) (cs : Nat → Ctx) (c' : Ctx) (e : Err)
    (hpass : ∀ j, 1 ≤ j → j < k → ∀ d, h.chain[j - 1]? = some d →
      ∀ next, AnteHandle d (cs j) tx simulate next = next (cs (j + 1)) tx simulate)
    (hrej : ∀ d, h.chain[k - 1]? = some d →
      ∀ next, AnteHandle d (cs k) tx simulate next = (c', some e)) :
    h.call AnteHandle (cs 1) tx simulate = (c', some e) ∧
    (∀ AnteHandle' : AnteHandleFn Ctx Tx Err,
      (∀ j, 1 ≤ j → j ≤ k → ∀ d, h.chain[j - 1]? = some d → AnteHandle' d = AnteHandle d) →
      h.call AnteHandle' (cs 1) tx simulate = (c', some e)) ∧
    (∀ AnteHandle' : AnteHandleFn Ctx Tx Err,
      (∀ d ∈ h.chain, d.stage ∈ fixedOrdering.take k → AnteHandle' d = AnteHandle d) →
      h.call AnteHandle' (cs 1) tx simulate = (c', some e)) := by
  have hh := NewAnteHandler_handler_eq opts h hres
  have hlen : k ≤ h.chain.length := by
    rw [hh]
    exact hk
  have hpos : ∀ AnteHandle' : AnteHandleFn Ctx Tx Err,
      (∀ j, 1 ≤ j → j ≤ k → ∀ d, h.chain[j - 1]? = some d → AnteHandle' d = AnteHandle d) →
      h.call AnteHandle' (cs 1) tx simulate = (c', some e) := by
    intro AnteHandle' hagree
    exact runChain_reject_at_of_agree AnteHandle AnteHandle' tx simulate c' e h.chain k cs
      hk1 hlen hpass hrej hagree
  refine ⟨hpos AnteHandle (fun _ _ _ _ _ => rfl), hpos, ?_⟩
  intro AnteHandle' hagree
  refine hpos AnteHandle' ?_
  intro j hj1 hjk d hd
  refine hagree d (List.getElem?_mem hd) ?_
  have hstages : h.chain.map AnteDecorator.stage = fixedOrdering := by
    rw [hh]
    rfl
  have hget : (fixedOrdering.take k)[j - 1]? = some d.stage := by
    rw [List.getElem?_take_of_lt (by omega), ← hstages, List.getElem?_map, hd]
    rfl
  exact List.getElem?_mem hget

/-- Witness for C6: the handler of the fully supplied options, with sample stage
bodies in which signature verification (stage 13) rejects: the result carries
the gas of twelve stages and the log of thirteen. -/
theorem NewAnteHandler_chain_short_circuits_witness :
    (NewAnteHandler fullOpts).1 = some ⟨anteDecorators fullOpts⟩ ∧
    ChainedAnteHandler.call ⟨anteDecorators fullOpts⟩ sampleRejectSignature
        (sampleContextAt 1) () false =
      (⟨100, 12, fixedOrdering.take 13⟩, some "signature verification failed") :=
  ⟨by decide,
   (NewAnteHandler_chain_short_circuits fullOpts ⟨anteDecorators fullOpts⟩ (by decide)
      sampleRejectSignature () false 13 (by decide) (by decide) sampleContextAt
      ⟨100, 12, fixedOrdering.take 13⟩ "signature verification failed"
      (by
        intro j h1 h13 d hd next
        interval_cases j <;>
          simp [anteDecorators, fullOpts] at hd <;> subst hd <;> rfl)
      (by
        intro d hd next
        simp [anteDecorators, fullOpts] at hd
        subst hd
        rfl)).1⟩

/-- Counterexample for C6 as stated: on the handler of the fully supplied
options, with sample bodies in which context setup (stage 1) wraps the
remainder of the chain and returns no error, the extension-options stage
(stage 2) returns an error without calling its continuation, in every context
and for every continuation; it is entered in the run, and yet the result of the
handler is not that error. -/
theorem NewAnteHandler_chain_short_circuits_counterexample :
    (NewAnteHandler fullOpts).1 = some ⟨anteDecorators fullOpts⟩ ∧
    (anteDecorators fullOpts)[1]? =
      some (AnteDecorator.ExtensionOptionsDecorator (some ⟨3⟩)) ∧
    (∀ (ctx : SampleContext) (next : AnteHandler SampleContext Unit String),
      sampleSwallow (AnteDecorator.ExtensionOptionsDecorator (some ⟨3⟩)) ctx () false next =
        (⟨ctx.balance, ctx.gas, ctx.entered ++ [Stage.extensionOptionsCheck]⟩,
          some "unknown extension options")) ∧
    ChainedAnteHandler.call ⟨anteDecorators fullOpts⟩ sampleSwallow
        (sampleContextAt 1) () false =
      (⟨100, 1, [Stage.contextSetup, Stage.extensionOptionsCheck]⟩, none) :=
  ⟨by decide, by decide, fun _ _ => rfl, by decide⟩

/-- C7, as amended: in the handler built by `NewAnteHandler` the minimum-fee stage
is at position 8 and the fee-deduction stage at position 9, each occurring
nowhere else, so nothing lies between them. Run as a chain of responsibility
on a transaction that the minimum-fee stage rejects without using its
continuation: if every stage other than fee deduction hands the transaction
on, the result of the handler does not depend on the body of the fee-deduction
stage (it is not executed); and if every stage other than fee deduction leaves
the payer's balance as its continuation leaves it, the balance in the returned
context is the one the handler was given, whatever the fee-deduction stage
would debit. -/
theorem NewAnteHandler_fee_floor_before_deduction {Ctx Tx Err Bal : Type}
    (opts : HandlerOptions) (h : ChainedAnteHandler)
    (hres : (NewAnteHandler opts).1 = some h) :
    h.chain[7]? = some (AnteDecorator.FeeDecorator opts.GlobalFeeSubspace opts.StakingKeeper) ∧
    h.chain[8]? = some (AnteDecorator.DeductFeeDecorator opts.HandlerOptions.AccountKeeper
      opts.HandlerOptions.BankKeeper opts.HandlerOptions.FeegrantKeeper opts.TxFeeChecker) ∧
    (h.chain.map AnteDecorator.stage).indexOf Stage.feeDeduction =
      (h.chain.map AnteDecorator.stage).indexOf Stage.minimumFeeEnforcement + 1 ∧
    (h.chain.map AnteDecorator.stage).Nodup ∧
    ∀ (AnteHandle AnteHandle' : AnteHandleFn Ctx Tx Err) (tx : Tx),
      RejectsWithoutNext AnteHandle
        (AnteDecorator.FeeDecorator opts.GlobalFeeSubspace opts.StakingKeeper) tx →
      (∀ d ∈ h.chain, d.stage ≠ Stage.feeDeduction → AnteHandle' d = AnteHandle d) →
      ((∀ d ∈ h.chain, d.stage ≠ Stage.feeDeduction → PassesSameTx AnteHandle d tx) →
        ∀ ctx simulate,
          h.call AnteHandle' ctx tx simulate = h.call AnteHandle ctx tx simulate) ∧
      (∀ balance : Ctx → Bal,
        (∀ d ∈ h.chain, d.stage ≠ Stage.feeDeduction →
          LeavesBalanceToNext AnteHandle balance d tx) →
        ∀ ctx simulate, balance (h.call AnteHandle' ctx tx simulate).1 = balance ctx) := by
  have hh := NewAnteHandler_handler_eq opts h hres
  subst hh
  have hs : (anteDecorators opts).map AnteDecorator.stage = fixedOrdering := rfl
  refine ⟨rfl, rfl, ?_, ?_, ?_⟩
  · simp only [hs]
    decide
  · simp only [hs]
    decide
  · intro AnteHandle AnteHandle' tx hrej hagree
    have hfeeMem : AnteDecorator.FeeDecorator opts.GlobalFeeSubspace opts.StakingKeeper ∈
        anteDecorators opts := by simp [anteDecorators]
    have hfeeStage : (AnteDecorator.FeeDecorator opts.GlobalFeeSubspace
        opts.StakingKeeper).stage ≠ Stage.feeDeduction := by simp [AnteDecorator.stage]
    have hpre : ∀ p ∈ (anteDecorators opts).take 7,
        p ∈ anteDecorators opts ∧ p.stage ≠ Stage.feeDeduction := by
      intro p hp
      refine ⟨List.mem_of_mem_take hp, ?_⟩
      simp only [anteDecorators, List.take_succ_cons, List.take_zero, List.mem_cons,
        List.mem_singleton, List.not_mem_nil, or_false] at hp
      rcases hp with hp | hp | hp | hp | hp | hp | hp <;>
        subst hp <;> simp [AnteDecorator.stage]
    have hfee' := hagree _ hfeeMem hfeeStage
    refine ⟨?_, ?_⟩
    · intro hsame ctx simulate
      exact runChain_congr_of_reject AnteHandle AnteHandle' tx
        (AnteDecorator.FeeDecorator opts.GlobalFeeSubspace opts.StakingKeeper)
        ((anteDecorators opts).drop 8) hfee' hrej ((anteDecorators opts).take 7)
        (fun p hp => hsame p (hpre p hp).1 (hpre p hp).2)
        (fun p hp => hagree p (hpre p hp).1 (hpre p hp).2) ctx simulate
    · intro balance hleave ctx simulate
      have hrej' : RejectsWithoutNext AnteHandle'
          (AnteDecorator.FeeDecorator opts.GlobalFeeSubspace opts.StakingKeeper) tx := by
        unfold RejectsWithoutNext
        rw [hfee']
        exact hrej
      have hleaveFee : LeavesBalanceToNext AnteHandle' balance
          (AnteDecorator.FeeDecorator opts.GlobalFeeSubspace opts.StakingKeeper) tx := by
        unfold LeavesBalanceToNext
        rw [hfee']
        exact hleave _ hfeeMem hfeeStage
      exact runChain_keepsBalance_of_reject AnteHandle' balance tx
        (AnteDecorator.FeeDecorator opts.GlobalFeeSubspace opts.StakingKeeper)
        ((anteDecorators opts).drop 8) hleaveFee hrej' ((anteDecorators opts).take 7)
        (fun p hp => by
          unfold LeavesBalanceToNext
          rw [hagree p (hpre p hp).1 (hpre p hp).2]
          exact hleave p (hpre p hp).1 (hpre p hp).2) ctx simulate

/-- Witness for C7: the handler of the fully supplied options and two families of
sample stage bodies whose minimum-fee stage rejects, one debiting ten units in
the fee-deduction stage and one emptying the balance there: both give the same
result, and the balance of the returned context is the initial one. -/
theorem NewAnteHandler_fee_floor_before_deduction_witness :
    (NewAnteHandler fullOpts).1 = some ⟨anteDecorators fullOpts⟩ ∧
    ChainedAnteHandler.call ⟨anteDecorators fullOpts⟩ sampleRejectFeeDrain
        (sampleContextAt 1) () false =
      ChainedAnteHandler.call ⟨anteDecorators fullOpts⟩ sampleRejectFee
        (sampleContextAt 1) () false ∧
    (ChainedAnteHandler.call ⟨anteDecorators fullOpts⟩ sampleRejectFeeDrain
        (sampleContextAt 1) () false).1.balance = (sampleContextAt 1).balance :=
  have hw := (NewAnteHandler_fee_floor_before_deduction fullOpts ⟨anteDecorators fullOpts⟩
      (by decide)).2.2.2.2 sampleRejectFee sampleRejectFeeDrain ()
      (fun _ _ => ⟨_, _, fun _ => rfl⟩)
      (by
        intro d _ hd
        cases d <;> first | rfl | exact absurd rfl hd)
  ⟨by decide,
   hw.1
      (by
        intro d _ hd next next' hnn ctx simulate
        cases d <;> first | exact hnn _ _ | rfl)
      (sampleContextAt 1) false,
   hw.2 SampleContext.balance
      (by
        intro d _ hd next hnext ctx simulate
        cases d <;> first | exact hnext _ _ | rfl | exact absurd rfl hd)
      (sampleContextAt 1) false⟩

/-- Counterexample for C7 as stated: on the handler of the fully supplied
options, with sample bodies in which the governance-vote stage (stage 7) debits
five units and the minimum-fee stage rejects without calling its continuation,
the fee-deduction stage is not entered, and yet the balance of the returned
context is not the initial one. -/
theorem NewAnteHandler_fee_floor_before_deduction_counterexample :
    (NewAnteHandler fullOpts).1 = some ⟨anteDecorators fullOpts⟩ ∧
    RejectsWithoutNext sampleEarlyDebit
      (AnteDecorator.FeeDecorator fullOpts.GlobalFeeSubspace fullOpts.StakingKeeper) () ∧
    ChainedAnteHandler.call ⟨anteDecorators fullOpts⟩ sampleEarlyDebit
        (sampleContextAt 1) () false =
      (⟨95, 7, fixedOrdering.take 8⟩, some "insufficient fee") ∧
    (ChainedAnteHandler.call ⟨anteDecorators fullOpts⟩ sampleEarlyDebit
        (sampleContextAt 1) () false).1.balance ≠ (sampleContextAt 1).balance :=
  ⟨by decide, fun _ _ => ⟨_, _, fun _ => rfl⟩, by decide, by decide⟩

end AtomOne
